import Mathlib

/-!
Verification development for the ytdlnis backend core
(`server/app/job_state.py`, `server/app/tasks.py`, `server/app/storage.py`,
`server/app/main.py`).

The Redis-backed job store is embedded as an association list from job key
to a job hash whose fields mirror the hash fields the code writes
(`status`, `progress`, `created_at`, `updated_at`, `request`, `result`,
`error`).  Redis HSET with a mapping merges the given fields into the
existing hash, which is modelled by a field-wise update of the hash
record.  String (de)serialisation performed by the code (JSON encoding of
the result dict and of the request payload, enum values, ISO timestamps)
is an injective coding per field and is elided: fields hold the structured
values directly.  The `%.2f` formatting of progress is modelled as storing
the rational value itself; the claims below only involve the progresses 0
and 100, where the formatting round-trips exactly.  Timestamps are
abstract naturals threaded as a `now` parameter.  TTL refresh of job
hashes (`expire`) has no observable effect on any claim and is elided;
download-token TTLs, which the spec's token claims mention, are modelled
explicitly with an `expires_at` field.
-/

namespace Ytdlnis

/-- Association-list lookup, first binding wins (Redis keys are unique). -/
def lookupKey (k : String) : List (String × α) → Option α
  | [] => none
  | (k₂, v) :: rest => if k = k₂ then some v else lookupKey k rest

/-- Remove every binding of a key (Redis DEL). -/
def eraseKey (k : String) : List (String × α) → List (String × α)
  | [] => []
  | (k₂, v) :: rest => if k = k₂ then eraseKey k rest else (k₂, v) :: eraseKey k rest

/-- Embeds `JobStatus` from `job_state.py`. -/
inductive JobStatus where
  | queued
  | running
  | succeeded
  | failed
deriving DecidableEq, Repr

/-- The string value of a status (`JobStatus.value` in the source). -/
def JobStatus.value : JobStatus → String
  | .queued => "queued"
  | .running => "running"
  | .succeeded => "succeeded"
  | .failed => "failed"

/-- The result dict built by the worker: `mime`, `file_name`, `size_bytes`,
`storage_path` (`tasks.py`, `download_media`). -/
structure ResultDict where
  mime : Option String
  file_name : String
  size_bytes : Nat
  storage_path : String
deriving DecidableEq, Repr

/-- The request payload of `POST /api/jobs` (`schemas.JobCreateRequest`).
Headers are modelled as an association list standing for the JSON object. -/
structure JobCreateRequest where
  url : String
  format : Option String
  cookie : Option String
  headers : Option (List (String × String))
  proxy : Option String
  prefer_audio : Bool
  filename : Option String
deriving DecidableEq, Repr

/-- One Redis job hash: exactly the fields the store ever writes.  A field
that was never written is `none` (absent from the hash). -/
structure JobHash where
  status : Option JobStatus := none
  progress : Option Rat := none
  result : Option ResultDict := none
  error : Option String := none
  created_at : Option Nat := none
  updated_at : Option Nat := none
  request : Option JobCreateRequest := none
deriving DecidableEq, Repr

/-- The whole job store: Redis keyspace restricted to `job:*` hashes,
keyed by job id. -/
def Store := List (String × JobHash)

/-- Redis HSET with a mapping: merge fields into the existing hash,
creating the hash when the key is absent. -/
def hsetJob (st : Store) (id : String) (f : JobHash → JobHash) : Store :=
  match lookupKey id st with
  | some h => (id, f h) :: eraseKey id st
  | none => (id, f {}) :: st

/-- Embeds `BaseJobStore._base_payload`: always writes `status`, `progress`,
`updated_at`; writes `result` only when one is given; writes `error` only
when one is given.  Fields not in the mapping are left untouched by HSET. -/
def base_payload (status : JobStatus) (progress : Rat) (result : Option ResultDict)
    (error : Option String) (now : Nat) (h : JobHash) : JobHash :=
  let h₁ := { h with status := some status, progress := some progress, updated_at := some now }
  let h₂ := match result with
    | some r => { h₁ with result := some r }
    | none => h₁
  match error with
  | some e => { h₂ with error := some e }
  | none => h₂

/-- Embeds `init_job`: writes `status = queued`, `progress = 0`, both timestamps
and the (sanitised) request payload. -/
def init_job (st : Store) (id : String) (payload : JobCreateRequest) (now : Nat) : Store :=
  hsetJob st id fun h =>
    { h with status := some .queued, progress := some 0,
             created_at := some now, updated_at := some now, request := some payload }

/-- Embeds `JobStateStore.set_status`. -/
def set_status (st : Store) (id : String) (status : JobStatus) (progress : Rat)
    (now : Nat) : Store :=
  hsetJob st id (base_payload status progress none none now)

/-- Embeds `JobStateStore.set_result`: Succeeded, progress forced to 100,
result written.  (No field is deleted: HSET only merges.) -/
def set_result (st : Store) (id : String) (result : ResultDict) (now : Nat) : Store :=
  hsetJob st id (base_payload .succeeded 100 (some result) none now)

/-- Embeds `JobStateStore.set_error`: Failed, progress reset to the default 0,
error message written.  (No field is deleted: HSET only merges.) -/
def set_error (st : Store) (id : String) (message : String) (now : Nat) : Store :=
  hsetJob st id (base_payload .failed 0 none (some message) now)

/-- Embeds `JobState` as reconstructed by `JobState.from_redis`. -/
structure JobState where
  job_id : String
  status : JobStatus
  progress : Rat
  result : Option ResultDict
  error : Option String
  created_at : Option Nat
  updated_at : Option Nat
deriving DecidableEq, Repr

/-- Embeds `AsyncJobStateStore.get_job` composed with `JobState.from_redis`:
an absent (or empty) hash gives `none`; otherwise `status` defaults to
queued and `progress` to 0 when the field is missing. -/
def get_job (st : Store) (id : String) : Option JobState :=
  (lookupKey id st).map fun h =>
    { job_id := id, status := h.status.getD .queued, progress := h.progress.getD 0,
      result := h.result, error := h.error,
      created_at := h.created_at, updated_at := h.updated_at }

/-- The dict `JobState.to_dict` returns: `id`, `status` (string value),
`progress`, `result`, `error`. -/
structure JobDict where
  id : String
  status : String
  progress : Rat
  result : Option ResultDict
  error : Option String
deriving DecidableEq, Repr

def JobState.to_dict (j : JobState) : JobDict :=
  { id := j.job_id, status := j.status.value, progress := j.progress,
    result := j.result, error := j.error }

/-! ### Download token vault (`store_download_token` / `pop_download_token`) -/

/-- The JSON payload stored under a download-token key. -/
structure TokenPayload where
  job_id : String
  file_path : String
  file_name : Option String
  mime : Option String
deriving DecidableEq, Repr

/-- One vault entry: the payload together with its absolute expiry time
(SETEX stores the value with a TTL). -/
structure TokenEntry where
  payload : TokenPayload
  expires_at : Nat
deriving DecidableEq, Repr

/-- The `download-token:*` keyspace, keyed by the opaque token. -/
def Vault := List (String × TokenEntry)

/-- Embeds `store_download_token`: SETEX of the payload under the token key with
the given TTL.  The `uuid4().hex` token the code generates is supplied as
the `token` parameter (an oracle for the fresh random string). -/
def store_download_token (v : Vault) (token : String) (now ttl : Nat)
    (p : TokenPayload) : Vault :=
  (token, { payload := p, expires_at := now + ttl }) :: eraseKey token v

/-- Redis GET under TTL: an entry whose expiry has passed is absent. -/
def vault_get (v : Vault) (token : String) (now : Nat) : Option TokenPayload :=
  match lookupKey token v with
  | some e => if now < e.expires_at then some e.payload else none
  | none => none

/-- Embeds `pop_download_token`: the pipelined (MULTI/EXEC, hence atomic)
GET + DEL.  Returns the payload now read, and the vault with the key
deleted; the two effects happen as one indivisible step, which the model
captures by making them a single function on the vault state. -/
def pop_download_token (v : Vault) (token : String) (now : Nat) :
    Option TokenPayload × Vault :=
  (vault_get v token now, eraseKey token v)

/-! ### Progress normalisation (`tasks._normalize_progress`) -/

/-- Value of a digit string (most significant first). -/
def digitsVal (l : List Char) : Nat :=
  l.foldl (fun a c => a * 10 + (c.toNat - 48)) 0

/-- Unsigned decimal parse: digits, optionally followed by a dot and more
digits; at least one digit overall; nothing may remain.  This covers the
decimal fragment of the Python `float` grammar; exponents, underscores and
the special words (inf, nan) are elided, no input below exercises them. -/
def parseUnsigned (l : List Char) : Option Rat :=
  let intPart := l.takeWhile Char.isDigit
  let rest := l.dropWhile Char.isDigit
  match rest with
  | [] => if intPart = [] then none else some (digitsVal intPart)
  | '.' :: frac =>
    let fracPart := frac.takeWhile Char.isDigit
    let rest₂ := frac.dropWhile Char.isDigit
    if rest₂ = [] then
      if intPart = [] ∧ fracPart = [] then none
      else
        let den := Nat.pow 10 fracPart.length
        some (mkRat (Int.ofNat (Nat.add (Nat.mul (digitsVal intPart) den) (digitsVal fracPart))) den)
    else none
  | _ => none

/-- Python `float(s)` on an already-stripped string: optional sign then an
unsigned decimal; `none` is the `ValueError` case. -/
def parseFloat (s : String) : Option Rat :=
  match s.data with
  | '+' :: rest => parseUnsigned rest
  | '-' :: rest => (parseUnsigned rest).map Rat.neg
  | l => parseUnsigned l

/-- Python `min` on two rationals (kernel-reducible comparison). -/
def pymin (a b : Rat) : Rat := if Rat.blt b a then b else a

/-- Python `max` on two rationals (kernel-reducible comparison). -/
def pymax (a b : Rat) : Rat := if Rat.blt a b then b else a

/-- Performs `value.replace` of every percent sign by the empty string. -/
def removePercents (s : String) : String :=
  String.mk (s.data.filter (fun c => c ≠ '%'))

/-- Python `str.strip()`: drop whitespace from both ends. -/
def stripWs (s : String) : String :=
  String.mk (((s.data.dropWhile Char.isWhitespace).reverse.dropWhile Char.isWhitespace).reverse)

/-- Embeds `tasks._normalize_progress`: falsy input gives 0; otherwise remove all
percent signs, strip surrounding whitespace, parse as a float and clamp
into [0, 100]; any parse failure gives 0. -/
def normalize_progress (value : Option String) : Rat :=
  match value with
  | none => 0
  | some v =>
    if v = "" then 0
    else
      match parseFloat (stripWs (removePercents v)) with
      | some x => pymax 0 (pymin 100 x)
      | none => 0

/-- Strip one trailing percent sign, when there is one. -/
def stripTrailingPercent (s : String) : String :=
  match s.data.reverse with
  | '%' :: rest => String.mk rest.reverse
  | _ => s

/-- Modelled from the spec: the §4.5 normalisation algorithm as worded —
"strip a trailing percent sign, parse as a floating value, clamp into
[0, 100]; unparsable or absent input normalizes to 0".  Used only to
compare the spec's wording with the code. -/
def normalize_progress_spec (value : Option String) : Rat :=
  match value with
  | none => 0
  | some v =>
    match parseFloat (stripWs (stripTrailingPercent v)) with
    | some x => pymax 0 (pymin 100 x)
    | none => 0

/-! ### Published events (`publish_event` and the worker) -/

/-- The result dict with `storage_path` stripped, as published in the
`completed` event. -/
structure PublicResult where
  mime : Option String
  file_name : String
  size_bytes : Nat
deriving DecidableEq, Repr

def publicOfResult (r : ResultDict) : PublicResult :=
  { mime := r.mime, file_name := r.file_name, size_bytes := r.size_bytes }

/-- The event dicts the code publishes on a job channel. -/
inductive EventBody where
  | started
  | progress (progress : Rat) (downloaded_bytes total_bytes speed eta : Option Nat)
  | file_finished (filename : Option String)
  | completed (result : PublicResult)
  | error (message : String)
deriving DecidableEq, Repr

/-- The `publish_event` helper stamps the event with the current time and broadcasts
it; the channel history is modelled as the list of stamped events in
publish order. -/
structure PublishedEvent where
  timestamp : Nat
  body : EventBody
deriving DecidableEq, Repr

def publish_event (log : List PublishedEvent) (now : Nat) (e : EventBody) :
    List PublishedEvent :=
  log ++ [{ timestamp := now, body := e }]

/-- One yt-dlp progress-hook invocation (`data` dict fields the hook reads). -/
structure HookData where
  status : Option String
  percent_str : Option String
  downloaded_bytes : Option Nat
  total_bytes : Option Nat
  speed : Option Nat
  eta : Option Nat
  filename : Option String
deriving DecidableEq, Repr

/-- The `progress_hook` closure in `download_media`. -/
def progress_hook (job_id : String) (now : Nat) (acc : Store × List PublishedEvent)
    (d : HookData) : Store × List PublishedEvent :=
  if d.status = some "downloading" then
    let p := normalize_progress d.percent_str
    (set_status acc.1 job_id .running p now,
     publish_event acc.2 now (.progress p d.downloaded_bytes d.total_bytes d.speed d.eta))
  else if d.status = some "finished" then
    (acc.1, publish_event acc.2 now (.file_finished d.filename))
  else acc

/-- The info dict returned by `ydl.extract_info` (only the key the worker
reads). -/
structure YdlInfo where
  filename : Option String
deriving DecidableEq, Repr

/-- Embeds `storage.StoredFile`. -/
structure StoredFileM where
  job_id : String
  file_name : String
  absolute_path : String
  size_bytes : Nat
  mime_type : Option String
deriving DecidableEq, Repr

/-- The body of `download_media`'s `try` block.  External effects are
oracles: `hooks` are the progress-hook invocations yt-dlp made before
returning or raising, `extract` is the outcome of `extract_info`
(`.error` is the raised exception's message), `file_exists` is the
filesystem check on the downloaded path, and `place` the outcome of
`storage.store` on that path.  The tuple carries the job store, the
channel history and the returned result or raised message. -/
def download_media_body (st₀ : Store) (log₀ : List PublishedEvent) (job_id : String)
    (url : Option String) (hooks : List HookData) (extract : Except String YdlInfo)
    (file_exists : String → Bool) (place : Except String StoredFileM) (now : Nat) :
    Store × List PublishedEvent × Except String ResultDict :=
  let st₁ := set_status st₀ job_id .running 0 now
  let log₁ := publish_event log₀ now .started
  match url with
  | none => (st₁, log₁, .error "Missing download URL")
  | some _ =>
    let acc := hooks.foldl (progress_hook job_id now) (st₁, log₁)
    match extract with
    | .error e => (acc.1, acc.2, .error e)
    | .ok info =>
      match info.filename with
      | none => (acc.1, acc.2, .error "yt-dlp did not provide a filename")
      | some f =>
        if f = "" then (acc.1, acc.2, .error "yt-dlp did not provide a filename")
        else if file_exists f then
          match place with
          | .error e => (acc.1, acc.2, .error e)
          | .ok stored =>
            let result : ResultDict :=
              { mime := stored.mime_type, file_name := stored.file_name,
                size_bytes := stored.size_bytes, storage_path := stored.absolute_path }
            (set_result acc.1 job_id result now,
             publish_event acc.2 now (.completed (publicOfResult result)),
             .ok result)
        else (acc.1, acc.2, .error f)

/-- Embeds `tasks.download_media`: the `try` body wrapped in the `except` handler,
which records the Failed state, publishes the `error` event and re-raises
(the `.error` outcome). -/
def download_media (st₀ : Store) (log₀ : List PublishedEvent) (job_id : String)
    (url : Option String) (hooks : List HookData) (extract : Except String YdlInfo)
    (file_exists : String → Bool) (place : Except String StoredFileM) (now : Nat) :
    Store × List PublishedEvent × Except String ResultDict :=
  match download_media_body st₀ log₀ job_id url hooks extract file_exists place now with
  | (st, log, .ok r) => (st, log, .ok r)
  | (st, log, .error m) =>
    (set_error st job_id m now, publish_event log now (.error m), .error m)

/-! ### Storage placement (`storage.LocalStorageBackend.store`)

The destination directory (date- and job-partitioned) is fixed for a call;
the directory's contents are modelled as the list of file names already
present in it, and a placed file's path as its name within that
directory. -/

/-- Index of the last dot in a character list, if any. -/
def lastDotIdx : List Char → Option Nat
  | [] => none
  | c :: rest =>
    match lastDotIdx rest with
    | some i => some (i + 1)
    | none => if c = '.' then some 0 else none

/-- Embeds `pathlib.PurePath.stem` of a file name: everything before the final
dot, provided that dot is neither leading nor trailing. -/
def nameStem (name : String) : String :=
  match lastDotIdx name.data with
  | some i => if 0 < i ∧ i + 1 < name.data.length then String.mk (name.data.take i) else name
  | none => name

/-- Embeds `pathlib.PurePath.suffix` of a file name: the final dot and what
follows it, provided that dot is neither leading nor trailing. -/
def nameSuffix (name : String) : String :=
  match lastDotIdx name.data with
  | some i => if 0 < i ∧ i + 1 < name.data.length then String.mk (name.data.drop i) else ""
  | none => ""

/-- The k-th collision candidate, the f-string of the source. -/
def candidate (stem suffix : String) (k : Nat) : String :=
  stem ++ "-" ++ toString k ++ suffix

/-- The `while destination.exists()` loop: starting at `counter`, return
the first candidate not present in the directory.  The loop is unbounded
in the source; fuel makes it a total function, and the wrapper passes
enough fuel for the search to succeed on any finite directory. -/
def findFreeName (existing : List String) (stem suffix : String) :
    Nat → Nat → Option String
  | _, 0 => none
  | counter, fuel + 1 =>
    let cand := candidate stem suffix counter
    if cand ∈ existing then findFreeName existing stem suffix (counter + 1) fuel
    else some cand

/-- destination resolution in `LocalStorageBackend.store`: keep the name
when it is free, otherwise search suffixed candidates from counter 1. -/
def resolve_destination (existing : List String) (file_name : String) : Option String :=
  if file_name ∈ existing then
    findFreeName existing (nameStem file_name) (nameSuffix file_name) 1 (existing.length + 1)
  else some file_name

/-- Python `a or b` on an optional string: `None` and the empty string are
falsy. -/
def pyOr (a : Option String) (b : String) : String :=
  match a with
  | some s => if s = "" then b else s
  | none => b

/-- Embeds `LocalStorageBackend.store`: choose the file name (`preferred_name or
source_path.name`), resolve collisions, move the source into place
(the destination name joins the directory listing), and return the
`StoredFile`.  `source_size` is the oracle for `destination.stat().st_size`
after the move. -/
def LocalStorageBackend.store (existing : List String) (job_id : String)
    (source_name : String) (source_size : Nat) (preferred_name : Option String)
    (mime_type : Option String) : Option (StoredFileM × List String) :=
  let file_name := pyOr preferred_name source_name
  match resolve_destination existing file_name with
  | none => none
  | some dest =>
    some ({ job_id := job_id, file_name := dest, absolute_path := dest,
            size_bytes := source_size, mime_type := mime_type }, dest :: existing)

deriving instance DecidableEq for Except

/-! ### URL validation and job creation (`main._validate_url`, `main.create_job`) -/

/-- The parts of `Settings` the modelled endpoints read. -/
structure SettingsM where
  allowed_domains : List String
deriving DecidableEq, Repr

/-- The parts of `urllib.parse.urlparse`'s result the validator reads. -/
structure ParsedUrl where
  scheme : String
  hostname : Option String
deriving DecidableEq, Repr

/-- Embeds `main._validate_url`: reject a scheme other than http/https; with a
non-empty allowlist, reject a host not on it. -/
def validate_url (u : ParsedUrl) (settings : SettingsM) : Except String Unit :=
  if ¬(u.scheme = "http" ∨ u.scheme = "https") then
    .error "Only http(s) URLs are allowed"
  else if settings.allowed_domains ≠ [] ∧
      (String.mk ((pyOr u.hostname "").data.map Char.toLower) ∉ settings.allowed_domains) then
    .error "URL domain is not allowed"
  else .ok ()

/-- The cookie redaction in `create_job`: a truthy cookie value is
replaced by the literal `"***"` in the payload written to the store. -/
def sanitize_request (p : JobCreateRequest) : JobCreateRequest :=
  match p.cookie with
  | some c => if c = "" then p else { p with cookie := some "***" }
  | none => p

/-- One `apply_async` call: the task id and the raw (unsanitised) payload
handed to the worker. -/
structure TaskCall where
  job_id : String
  payload : JobCreateRequest
deriving DecidableEq, Repr

/-- Embeds `main.create_job`: validate the URL first (an error leaves the store
untouched and dispatches nothing), then write the sanitised record and
dispatch the worker task with the raw payload.  `urlparse` is the oracle
for URL parsing and `job_id` for `uuid4().hex`. -/
def create_job (urlparse : String → ParsedUrl) (settings : SettingsM) (st : Store)
    (req : JobCreateRequest) (job_id : String) (now : Nat) :
    Store × Except String (String × JobStatus) × List TaskCall :=
  match validate_url (urlparse req.url) settings with
  | .error e => (st, .error e, [])
  | .ok _ =>
    let sanitized := sanitize_request req
    (init_job st job_id sanitized now, .ok (job_id, .queued), [{ job_id := job_id, payload := req }])

/-! ### Download endpoint (`main.download_file`) -/

/-- Embeds `pathlib.Path.name`: the last path component (POSIX separators). -/
def pathName (p : String) : String :=
  String.mk ((p.data.reverse.takeWhile (fun c => c ≠ '/')).reverse)

/-- Outcome of `GET /api/download/token`. -/
inductive DownloadOutcome where
  | notFound
  | gone
  | served (path file_name media_type : String)
deriving DecidableEq, Repr

/-- Embeds `main.download_file`: pop the token (atomically); an unknown or
expired token is 404 not-found; a resolved token whose file is missing is
410 gone; otherwise serve the file with the stored name and mime (with
the Python `or`-chain fallbacks).  `file_exists` is the filesystem oracle
and `guess_mime` the `mimetypes.guess_type` oracle. -/
def download_file (v : Vault) (token : String) (now : Nat)
    (file_exists : String → Bool) (guess_mime : String → Option String) :
    DownloadOutcome × Vault :=
  let popped := pop_download_token v token now
  match popped.1 with
  | none => (.notFound, popped.2)
  | some p =>
    if file_exists p.file_path then
      let filename := pyOr p.file_name (pathName p.file_path)
      let media_type := pyOr p.mime (pyOr (guess_mime filename) "application/octet-stream")
      (.served p.file_path filename media_type, popped.2)
    else (.gone, popped.2)

/-! ### Event stream (`main._event_stream`) -/

/-- One server-sent frame of the stream: the synthesized snapshot, or a
published message forwarded verbatim. -/
inductive SSEFrame where
  | snapshot (d : JobDict)
  | message (payload : PublishedEvent)
deriving DecidableEq, Repr

/-- Embeds `main._event_stream`: subscribe, then yield one snapshot frame built
from the current record (none when the job is unknown), then forward each
pubsub message of type "message" verbatim.  `msgs` is the list of
messages delivered on the channel after subscription, in publish order;
the cooperative poll loop delivers them in that order. -/
def event_stream (st : Store) (job_id : String) (msgs : List PublishedEvent) :
    List SSEFrame :=
  (match get_job st job_id with
   | some j => [SSEFrame.snapshot j.to_dict]
   | none => []) ++ msgs.map SSEFrame.message

/-! ### Concrete fixtures used by witnesses and counterexamples -/

/-- A minimal job-creation request. -/
def sampleReq : JobCreateRequest :=
  { url := "http://a", format := none, cookie := none, headers := none,
    proxy := none, prefer_audio := false, filename := none }

/-- A copy of `sampleReq` carrying one secret cookie. -/
def reqCookie₁ : JobCreateRequest := { sampleReq with cookie := some "SECRET1" }

/-- A copy of `sampleReq` carrying another secret cookie. -/
def reqCookie₂ : JobCreateRequest := { sampleReq with cookie := some "SECRET2" }

/-- A token descriptor whose file has disappeared. -/
def gonePayload : TokenPayload :=
  { job_id := "j", file_path := "/gone.mp4", file_name := none, mime := none }

/-- A vault holding `gonePayload` under "tok" until time 9. -/
def goneVault : Vault :=
  [("tok", { payload := gonePayload, expires_at := 9 })]

/-! ### Helper lemmas -/

theorem lookupKey_cons_self (k : String) (v : α) (l : List (String × α)) :
    lookupKey k ((k, v) :: l) = some v := by
  simp [lookupKey]

theorem lookupKey_eraseKey_self (k : String) (l : List (String × α)) :
    lookupKey k (eraseKey k l) = none := by
  induction l with
  | nil => rfl
  | cons p rest ih =>
    obtain ⟨k₂, v⟩ := p
    by_cases h : k = k₂
    · simpa [eraseKey, h] using ih
    · simpa [eraseKey, lookupKey, h] using ih

theorem lookupKey_hsetJob (st : Store) (id : String) (f : JobHash → JobHash) :
    lookupKey id (hsetJob st id f) = some (f ((lookupKey id st).getD {})) := by
  unfold hsetJob
  cases h : lookupKey id st <;> simp [h, lookupKey_cons_self]

theorem get_job_hsetJob (st : Store) (id : String) (f : JobHash → JobHash) :
    get_job (hsetJob st id f) id =
      some (let h := f ((lookupKey id st).getD {})
            { job_id := id, status := h.status.getD .queued, progress := h.progress.getD 0,
              result := h.result, error := h.error,
              created_at := h.created_at, updated_at := h.updated_at }) := by
  simp [get_job, lookupKey_hsetJob]

theorem get_job_set_error_fields (st : Store) (id m : String) (now : Nat) :
    ((get_job (set_error st id m now) id).map fun j => (j.status, j.error))
      = some (.failed, some m) ∧
    ((get_job (set_error st id m now) id).bind fun j => j.result)
      = ((lookupKey id st).bind fun h => h.result) := by
  unfold set_error
  rw [get_job_hsetJob]
  cases h : lookupKey id st <;> simp [h, base_payload]

theorem get_job_set_result_fields (st : Store) (id : String) (r : ResultDict) (now : Nat) :
    ((get_job (set_result st id r now) id).map fun j => (j.status, j.progress, j.result))
      = some (.succeeded, 100, some r) ∧
    ((get_job (set_result st id r now) id).bind fun j => j.error)
      = ((lookupKey id st).bind fun h => h.error) := by
  unfold set_result
  rw [get_job_hsetJob]
  cases h : lookupKey id st <;> simp [h, base_payload]

/-! ### Claims -/

/-- C1: issuing a download token then consuming it (within its TTL)
returns exactly the stored descriptor; consuming it again returns
not-found; and since the read-and-delete is one indivisible operation on
the vault, any two consume steps for the same token — in whatever order
concurrent duplicates are serialised — deliver the descriptor to at most
one of them. -/
theorem token_roundtrip_single_use (v : Vault) (token job_id file_path : String)
    (file_name mime : Option String) (ttl now₁ now₂ now₃ : Nat)
    (h : now₂ < now₁ + ttl) :
    (pop_download_token
      (store_download_token v token now₁ ttl
        { job_id := job_id, file_path := file_path, file_name := file_name, mime := mime })
      token now₂).1
      = some { job_id := job_id, file_path := file_path, file_name := file_name, mime := mime } ∧
    (pop_download_token
      (pop_download_token
        (store_download_token v token now₁ ttl
          { job_id := job_id, file_path := file_path, file_name := file_name, mime := mime })
        token now₂).2
      token now₃).1 = none ∧
    (∀ (w : Vault) (t : String) (n n' : Nat) (q : TokenPayload),
      (pop_download_token w t n).1 = some q →
      (pop_download_token (pop_download_token w t n).2 t n').1 = none) := by
  refine ⟨?_, ?_, ?_⟩
  · simp [pop_download_token, store_download_token, vault_get, lookupKey_cons_self, h]
  · simp [pop_download_token, store_download_token, vault_get, lookupKey_eraseKey_self]
  · intro w t n n' q _
    simp [pop_download_token, vault_get, lookupKey_eraseKey_self]

theorem token_roundtrip_single_use_witness :
    (5 : Nat) < 0 + 10 ∧
    (pop_download_token
      (store_download_token [] "tok" 0 10
        { job_id := "j", file_path := "/p", file_name := none, mime := none }) "tok" 5).1
      = some { job_id := "j", file_path := "/p", file_name := none, mime := none } :=
  ⟨by decide,
   (token_roundtrip_single_use [] "tok" "j" "/p" none none 10 0 5 7 (by decide)).1⟩

/-- C2 counterexample: after `init`, `set_error "boom"`, `set_result r`,
the record reads back with status Succeeded but the error field still
present (HSET merges, `set_result` deletes nothing), contradicting
"after setResult the record has ... no error field". -/
theorem set_result_keeps_stale_error :
    ((get_job
        (set_result
          (set_error (init_job [] "j" sampleReq 0) "j" "boom" 1)
          "j"
          { mime := some "video/mp4", file_name := "a.mp4", size_bytes := 5,
            storage_path := "/s/a.mp4" } 2)
        "j").map fun j => (j.status, j.error))
      = some (.succeeded, some "boom") := by decide

/-- C2 (amended): `set_result` moves the record to Succeeded with progress
forced to 100 and the given result present, and `set_error` moves it to
Failed with the message present and progress reset to 0 — but neither
operation clears the opposite field (the Redis HSET only merges), so the
result-iff-Succeeded / error-iff-Failed invariant holds exactly for
histories that never wrote the other terminal field: the error field
after `set_result` and the result field after `set_error` are whatever
the hash already held. -/
theorem terminal_write_fields (st : Store) (id : String) (r : ResultDict) (m : String)
    (now : Nat) :
    ((get_job (set_result st id r now) id).map fun j => (j.status, j.progress, j.result))
      = some (.succeeded, 100, some r) ∧
    ((get_job (set_result st id r now) id).bind fun j => j.error)
      = ((lookupKey id st).bind fun h => h.error) ∧
    ((get_job (set_error st id m now) id).map fun j => (j.status, j.progress, j.error))
      = some (.failed, 0, some m) ∧
    ((get_job (set_error st id m now) id).bind fun j => j.result)
      = ((lookupKey id st).bind fun h => h.result) := by
  refine ⟨(get_job_set_result_fields st id r now).1, (get_job_set_result_fields st id r now).2,
    ?_, (get_job_set_error_fields st id m now).2⟩
  unfold set_error
  rw [get_job_hsetJob]
  cases h : lookupKey id st <;> simp [h, base_payload]

/-- C9: initialising a fresh job id and reading it back gives status
Queued, progress 0, and neither a result nor an error field. -/
theorem init_job_fresh_fields (st : Store) (id : String) (req : JobCreateRequest)
    (now : Nat) (h : lookupKey id st = none) :
    ((get_job (init_job st id req now) id).map fun j => (j.status, j.progress, j.result, j.error))
      = some (.queued, 0, none, none) := by
  unfold init_job
  rw [get_job_hsetJob, h]
  simp

theorem init_job_fresh_fields_witness :
    lookupKey "j" ([] : Store) = none ∧
    ((get_job (init_job [] "j" sampleReq 0) "j").map
        fun j => (j.status, j.progress, j.result, j.error))
      = some (.queued, 0, none, none) :=
  ⟨rfl, init_job_fresh_fields [] "j" sampleReq 0 rfl⟩

/-- The clamp `max(0.0, min(100.0, x))` always lands in [0, 100]. -/
theorem clamp_bounds (x : Rat) : 0 ≤ pymax 0 (pymin 100 x) ∧ pymax 0 (pymin 100 x) ≤ 100 := by
  unfold pymax pymin
  by_cases h₁ : Rat.blt x 100 = true
  · rw [if_pos h₁]
    by_cases h₂ : Rat.blt 0 x = true
    · rw [if_pos h₂]
      exact ⟨le_of_lt h₂, le_of_lt h₁⟩
    · rw [if_neg h₂]
      exact ⟨le_refl 0, by norm_num⟩
  · rw [if_neg h₁]
    by_cases h₂ : Rat.blt 0 100 = true
    · rw [if_pos h₂]
      exact ⟨by norm_num, le_refl 100⟩
    · rw [if_neg h₂]
      exact ⟨le_refl 0, by norm_num⟩

/-- C3 counterexample: the claim's algorithm ("strip a trailing percent
sign, parse the remainder") normalises `"%45"` to 0 (no trailing sign, and
`"%45"` does not parse), but the code removes every percent sign and
yields 45. -/
theorem normalize_progress_trailing_only_fails :
    normalize_progress (some "%45") = 45 ∧
    normalize_progress_spec (some "%45") = 0 ∧
    (45 : Rat) ≠ 0 := by decide

/-- C3 (amended): normalisation removes every percent sign (not only a
trailing one) and surrounding whitespace, parses the remainder as a
floating value and clamps into [0, 100]; absent or unparsable input
normalises to 0.  The spec's worked examples all hold. -/
theorem normalize_progress_amended :
    normalize_progress (some "45%") = 45 ∧
    normalize_progress none = 0 ∧
    normalize_progress (some "") = 0 ∧
    normalize_progress (some "150%") = 100 ∧
    normalize_progress (some "-5%") = 0 ∧
    (∀ s : String, parseFloat (stripWs (removePercents s)) = none →
      normalize_progress (some s) = 0) ∧
    (∀ v : Option String, 0 ≤ normalize_progress v ∧ normalize_progress v ≤ 100) := by
  refine ⟨by decide, by decide, by decide, by decide, by decide, ?_, ?_⟩
  · intro s hs
    by_cases h : s = ""
    · simp [normalize_progress, h]
    · simp [normalize_progress, h, hs]
  · intro v
    match v with
    | none =>
      show (0 : Rat) ≤ 0 ∧ (0 : Rat) ≤ 100
      exact ⟨le_refl 0, by norm_num⟩
    | some s =>
      by_cases h : s = ""
      · simp only [normalize_progress, h, if_pos]
        exact ⟨le_refl 0, by norm_num⟩
      · simp only [normalize_progress, h, if_neg, if_false]
        cases hp : parseFloat (stripWs (removePercents s)) with
        | none => exact ⟨le_refl 0, by norm_num⟩
        | some x => exact clamp_bounds x

/-- C4: a job-creation request whose URL has a non-http(s) scheme, or —
with a non-empty allowlist — a host not on the allowlist, is rejected
with a validation error, the store is returned unchanged and no worker
task is dispatched; with an empty allowlist any http(s) URL is accepted
and the sanitised record is written. -/
theorem create_job_host_allowlist (urlparse : String → ParsedUrl) (settings : SettingsM)
    (st : Store) (req : JobCreateRequest) (job_id : String) (now : Nat) :
    ((¬((urlparse req.url).scheme = "http" ∨ (urlparse req.url).scheme = "https") ∨
      (settings.allowed_domains ≠ [] ∧
        String.mk ((pyOr (urlparse req.url).hostname "").data.map Char.toLower)
          ∉ settings.allowed_domains)) →
      ∃ e, create_job urlparse settings st req job_id now = (st, .error e, [])) ∧
    (settings.allowed_domains = [] →
      ((urlparse req.url).scheme = "http" ∨ (urlparse req.url).scheme = "https") →
      create_job urlparse settings st req job_id now
        = (init_job st job_id (sanitize_request req) now, .ok (job_id, .queued),
           [{ job_id := job_id, payload := req }])) := by
  constructor
  · intro h
    unfold create_job validate_url
    by_cases hs : (urlparse req.url).scheme = "http" ∨ (urlparse req.url).scheme = "https"
    · rcases h with h | h
      · exact absurd hs h
      · rw [if_neg (not_not_intro hs), if_pos h]
        exact ⟨"URL domain is not allowed", rfl⟩
    · rw [if_pos hs]
      exact ⟨"Only http(s) URLs are allowed", rfl⟩
  · intro hempty hs
    unfold create_job validate_url
    rw [if_neg (not_not_intro hs), if_neg (fun hc => hc.1 hempty)]

theorem create_job_host_allowlist_witness :
    (∃ e, create_job (fun _ => { scheme := "https", hostname := some "evil.com" })
        { allowed_domains := ["good.com"] } []
        { url := "https://evil.com/v", format := none, cookie := none, headers := none,
          proxy := none, prefer_audio := false, filename := none } "id1" 0
        = ([], .error e, [])) ∧
    create_job (fun _ => { scheme := "https", hostname := some "any.com" })
        { allowed_domains := [] } []
        { url := "https://any.com/v", format := none, cookie := none, headers := none,
          proxy := none, prefer_audio := false, filename := none } "id2" 0
      = (init_job [] "id2"
          (sanitize_request
            { url := "https://any.com/v", format := none, cookie := none, headers := none,
              proxy := none, prefer_audio := false, filename := none }) 0,
         .ok ("id2", .queued),
         [{ job_id := "id2",
            payload := { url := "https://any.com/v", format := none, cookie := none,
                         headers := none, proxy := none, prefer_audio := false,
                         filename := none } }]) :=
  ⟨(create_job_host_allowlist (fun _ => { scheme := "https", hostname := some "evil.com" })
      { allowed_domains := ["good.com"] } []
      { url := "https://evil.com/v", format := none, cookie := none, headers := none,
        proxy := none, prefer_audio := false, filename := none } "id1" 0).1
      (Or.inr ⟨by decide, by decide⟩),
   (create_job_host_allowlist (fun _ => { scheme := "https", hostname := some "any.com" })
      { allowed_domains := [] } []
      { url := "https://any.com/v", format := none, cookie := none, headers := none,
        proxy := none, prefer_audio := false, filename := none } "id2" 0).2
      rfl (Or.inr rfl)⟩

/-- C7: an unknown or expired token gives the not-found outcome; a token
that resolves to a descriptor whose file no longer exists gives the
distinct gone outcome with the token nevertheless consumed (deleted from
the vault); when the token resolves and the file exists, the file is
served with the stored path, name and mime fallbacks. -/
theorem download_file_taxonomy (v : Vault) (token : String) (now : Nat)
    (fe : String → Bool) (gm : String → Option String) :
    (vault_get v token now = none →
      (download_file v token now fe gm).1 = .notFound) ∧
    (∀ p, vault_get v token now = some p → fe p.file_path = false →
      (download_file v token now fe gm).1 = .gone ∧
      lookupKey token (download_file v token now fe gm).2 = none) ∧
    (∀ p, vault_get v token now = some p → fe p.file_path = true →
      (download_file v token now fe gm).1
        = .served p.file_path (pyOr p.file_name (pathName p.file_path))
            (pyOr p.mime
              (pyOr (gm (pyOr p.file_name (pathName p.file_path)))
                "application/octet-stream"))) := by
  refine ⟨?_, ?_, ?_⟩
  · intro h
    simp [download_file, pop_download_token, h]
  · intro p hp hfe
    simp [download_file, pop_download_token, hp, hfe, lookupKey_eraseKey_self]
  · intro p hp hfe
    simp [download_file, pop_download_token, hp, hfe]

theorem download_file_taxonomy_witness :
    vault_get goneVault "tok" 5 = some gonePayload ∧
    (download_file goneVault "tok" 5 (fun _ => false) (fun _ => none)).1 = .gone :=
  ⟨by decide,
   ((download_file_taxonomy goneVault "tok" 5 (fun _ => false) (fun _ => none)).2.1
      gonePayload (by decide) rfl).1⟩

/-- C8: for a job whose record exists, a new subscription yields exactly
one leading synthesized snapshot frame built from the current record,
followed by every message published on the channel afterwards, forwarded
verbatim in publish order. -/
theorem event_stream_snapshot_then_forwarding (st : Store) (job_id : String)
    (msgs : List PublishedEvent) (j : JobState) (h : get_job st job_id = some j) :
    (event_stream st job_id msgs).length = msgs.length + 1 ∧
    (event_stream st job_id msgs).head? = some (.snapshot j.to_dict) ∧
    ∀ i : Nat, (event_stream st job_id msgs)[i + 1]? = msgs[i]?.map SSEFrame.message := by
  unfold event_stream
  rw [h]
  refine ⟨by simp, by simp, ?_⟩
  intro i
  simp

theorem event_stream_snapshot_then_forwarding_witness :
    get_job (init_job [] "j" sampleReq 0) "j"
      = some { job_id := "j", status := .queued, progress := 0, result := none,
               error := none, created_at := some 0, updated_at := some 0 } ∧
    (event_stream (init_job [] "j" sampleReq 0) "j"
        [{ timestamp := 1, body := .started }]).head?
      = some (.snapshot (JobState.to_dict
          { job_id := "j", status := .queued, progress := 0, result := none,
            error := none, created_at := some 0, updated_at := some 0 })) :=
  ⟨by decide,
   (event_stream_snapshot_then_forwarding (init_job [] "j" sampleReq 0) "j"
      [{ timestamp := 1, body := .started }]
      { job_id := "j", status := .queued, progress := 0, result := none,
        error := none, created_at := some 0, updated_at := some 0 }
      (by decide)).2.1⟩

theorem getLast?_append_singleton (l : List α) (a : α) :
    (l ++ [a]).getLast? = some a := by
  simp

/-- C5: whenever the worker body raises (extraction failure, missing or
vanished download, placement failure, missing URL), `download_media`
records the job as Failed with the exception's message, publishes an
`error` event as the last event on the channel, and re-raises; in
particular a placement failure after a successful extraction still
resolves the job to Failed, never leaving it Running. -/
theorem download_media_failure (st₀ : Store) (log₀ : List PublishedEvent) (job_id : String)
    (url : Option String) (hooks : List HookData) (extract : Except String YdlInfo)
    (fe : String → Bool) (place : Except String StoredFileM) (now : Nat) :
    (∀ m, (download_media st₀ log₀ job_id url hooks extract fe place now).2.2 = .error m →
      ((get_job (download_media st₀ log₀ job_id url hooks extract fe place now).1 job_id).map
          fun j => (j.status, j.error)) = some (.failed, some m) ∧
      (download_media st₀ log₀ job_id url hooks extract fe place now).2.1.getLast?
        = some { timestamp := now, body := .error m }) ∧
    (∀ (u : String) (info : YdlInfo) (f e : String),
      url = some u → extract = .ok info → info.filename = some f → f ≠ "" →
      fe f = true → place = .error e →
      (download_media st₀ log₀ job_id url hooks extract fe place now).2.2 = .error e ∧
      ((get_job (download_media st₀ log₀ job_id url hooks extract fe place now).1 job_id).map
          fun j => (j.status, j.error)) = some (.failed, some e)) := by
  have part₁ : ∀ m,
      (download_media st₀ log₀ job_id url hooks extract fe place now).2.2 = .error m →
      ((get_job (download_media st₀ log₀ job_id url hooks extract fe place now).1 job_id).map
          fun j => (j.status, j.error)) = some (.failed, some m) ∧
      (download_media st₀ log₀ job_id url hooks extract fe place now).2.1.getLast?
        = some { timestamp := now, body := .error m } := by
    intro m hm
    rcases hbe : download_media_body st₀ log₀ job_id url hooks extract fe place now
      with ⟨st, log, out⟩
    simp only [download_media, hbe] at hm ⊢
    cases out with
    | ok r => simp at hm
    | error m₂ =>
      simp only at hm
      cases hm
      refine ⟨(get_job_set_error_fields st job_id m now).1, ?_⟩
      simp [publish_event, getLast?_append_singleton]
  refine ⟨part₁, ?_⟩
  intro u info f e hu hex hf hfne hfe hpl
  have hout : (download_media st₀ log₀ job_id url hooks extract fe place now).2.2
      = .error e := by
    subst hu
    subst hex
    subst hpl
    simp [download_media, download_media_body, hf, hfne, hfe]
  exact ⟨hout, (part₁ e hout).1⟩

theorem download_media_failure_witness :
    (Except.error "disk full" : Except String StoredFileM) = .error "disk full" ∧
    (download_media [] [] "j" (some "http://a/v") []
        (.ok { filename := some "f.mp4" }) (fun _ => true) (.error "disk full") 3).2.2
      = .error "disk full" ∧
    ((get_job (download_media [] [] "j" (some "http://a/v") []
        (.ok { filename := some "f.mp4" }) (fun _ => true) (.error "disk full") 3).1 "j").map
        fun j => (j.status, j.error)) = some (.failed, some "disk full") :=
  ⟨rfl,
   (download_media_failure [] [] "j" (some "http://a/v") []
      (.ok { filename := some "f.mp4" }) (fun _ => true) (.error "disk full") 3).2
     "http://a/v" { filename := some "f.mp4" } "f.mp4" "disk full"
     rfl rfl rfl (by decide) rfl rfl⟩

/-- The collision loop returns the first free suffixed candidate at or
after its starting counter. -/
theorem findFreeName_some (existing : List String) (stem sfx : String) :
    ∀ (fuel counter : Nat) (d : String),
      findFreeName existing stem sfx counter fuel = some d →
      ∃ k, counter ≤ k ∧ d = candidate stem sfx k ∧ candidate stem sfx k ∉ existing ∧
        ∀ j, counter ≤ j → j < k → candidate stem sfx j ∈ existing := by
  intro fuel
  induction fuel with
  | zero =>
    intro counter d h
    simp [findFreeName] at h
  | succ n ih =>
    intro counter d h
    by_cases hc : candidate stem sfx counter ∈ existing
    · simp only [findFreeName, if_pos hc] at h
      obtain ⟨k, hk₁, hk₂, hk₃, hk₄⟩ := ih (counter + 1) d h
      refine ⟨k, by omega, hk₂, hk₃, ?_⟩
      intro j hj₁ hj₂
      by_cases hj : j = counter
      · exact hj ▸ hc
      · exact hk₄ j (by omega) hj₂
    · simp only [findFreeName, if_neg hc, Option.some.injEq] at h
      refine ⟨counter, le_refl counter, h.symm, hc, ?_⟩
      intro j hj₁ hj₂
      omega

/-- C6: placing a second artifact with the same (truthy) preferred name
into the same directory yields a final name distinct from the first: the
second name is the first free candidate `stem-k.suffix` (k ≥ 1, every
smaller suffix occupied), and when the first placement found the
preferred name free, the first final name is exactly the preferred name —
so the two names differ only by the inserted numeric suffix. -/
theorem store_collision_suffix (existing₀ : List String) (jid₁ jid₂ src₁ src₂ : String)
    (sz₁ sz₂ : Nat) (n : String) (m₁ m₂ : Option String)
    (f₁ f₂ : StoredFileM) (ex₁ ex₂ : List String)
    (hn : n ≠ "")
    (h₁ : LocalStorageBackend.store existing₀ jid₁ src₁ sz₁ (some n) m₁ = some (f₁, ex₁))
    (h₂ : LocalStorageBackend.store ex₁ jid₂ src₂ sz₂ (some n) m₂ = some (f₂, ex₂)) :
    f₂.file_name ≠ f₁.file_name ∧
    (∃ k, 1 ≤ k ∧ f₂.file_name = candidate (nameStem n) (nameSuffix n) k ∧
      candidate (nameStem n) (nameSuffix n) k ∉ ex₁ ∧
      ∀ j, 1 ≤ j → j < k → candidate (nameStem n) (nameSuffix n) j ∈ ex₁) ∧
    (n ∉ existing₀ → f₁.file_name = n) := by
  simp only [LocalStorageBackend.store, pyOr, if_neg hn] at h₁ h₂
  rcases hr₁ : resolve_destination existing₀ n with _ | d₁
  · rw [hr₁] at h₁
    simp at h₁
  rw [hr₁] at h₁
  simp only [Option.some.injEq, Prod.mk.injEq] at h₁
  obtain ⟨hf₁, hex₁⟩ := h₁
  have hd₁mem : d₁ ∈ ex₁ := by
    rw [← hex₁]
    exact List.mem_cons_self d₁ existing₀
  have hd₁n : n ∉ existing₀ → d₁ = n := by
    intro hns
    rw [resolve_destination, if_neg hns] at hr₁
    exact (Option.some.injEq _ _ ▸ hr₁).symm
  have hnex₁ : n ∈ ex₁ := by
    by_cases hns : n ∈ existing₀
    · rw [← hex₁]
      exact List.mem_cons_of_mem d₁ hns
    · rw [← hd₁n hns]
      exact hd₁mem
  rcases hr₂ : resolve_destination ex₁ n with _ | d₂
  · rw [hr₂] at h₂
    simp at h₂
  rw [hr₂] at h₂
  simp only [Option.some.injEq, Prod.mk.injEq] at h₂
  obtain ⟨hf₂, _⟩ := h₂
  rw [resolve_destination, if_pos hnex₁] at hr₂
  obtain ⟨k, hk₁, hk₂, hk₃, hk₄⟩ :=
    findFreeName_some ex₁ (nameStem n) (nameSuffix n) (ex₁.length + 1) 1 d₂ hr₂
  refine ⟨?_, ⟨k, hk₁, by rw [← hf₂, hk₂], by simpa using hk₃, hk₄⟩, ?_⟩
  · rw [← hf₁, ← hf₂]
    intro hEq
    simp only at hEq
    rw [← hEq, hk₂] at hd₁mem
    exact hk₃ hd₁mem
  · intro hns
    rw [← hf₁]
    exact hd₁n hns

theorem store_collision_suffix_witness :
    ("a.txt" : String) ≠ "" ∧
    LocalStorageBackend.store [] "j1" "s1" 5 (some "a.txt") none
      = some ({ job_id := "j1", file_name := "a.txt", absolute_path := "a.txt",
                size_bytes := 5, mime_type := none }, ["a.txt"]) ∧
    LocalStorageBackend.store ["a.txt"] "j2" "s2" 6 (some "a.txt") none
      = some ({ job_id := "j2", file_name := "a-1.txt", absolute_path := "a-1.txt",
                size_bytes := 6, mime_type := none }, ["a-1.txt", "a.txt"]) ∧
    ("a-1.txt" : String) ≠ "a.txt" :=
  ⟨by decide, by decide, by decide,
   (store_collision_suffix [] "j1" "j2" "s1" "s2" 5 6 "a.txt" none none
      { job_id := "j1", file_name := "a.txt", absolute_path := "a.txt",
        size_bytes := 5, mime_type := none }
      { job_id := "j2", file_name := "a-1.txt", absolute_path := "a-1.txt",
        size_bytes := 6, mime_type := none }
      ["a.txt"] ["a-1.txt", "a.txt"] (by decide) (by decide) (by decide)).1⟩

/-- C10: two job-creation requests that differ only in their (non-empty)
cookie values produce identical persisted job records — the stored
request payload carries the literal "***" in place of the cookie — while
the raw cookie still reaches the dispatched worker task payload. -/
theorem cookie_redaction (urlparse : String → ParsedUrl) (settings : SettingsM)
    (st : Store) (r₁ r₂ : JobCreateRequest) (job_id : String) (now : Nat) (c₁ c₂ : String)
    (hurl : r₁.url = r₂.url) (hfmt : r₁.format = r₂.format)
    (hhdr : r₁.headers = r₂.headers) (hpxy : r₁.proxy = r₂.proxy)
    (haud : r₁.prefer_audio = r₂.prefer_audio) (hfn : r₁.filename = r₂.filename)
    (hc₁ : r₁.cookie = some c₁) (hc₂ : r₂.cookie = some c₂)
    (hne₁ : c₁ ≠ "") (hne₂ : c₂ ≠ "") :
    sanitize_request r₁ = sanitize_request r₂ ∧
    (sanitize_request r₁).cookie = some "***" ∧
    (create_job urlparse settings st r₁ job_id now).1
      = (create_job urlparse settings st r₂ job_id now).1 ∧
    (∀ t ∈ (create_job urlparse settings st r₁ job_id now).2.2,
      t.payload.cookie = some c₁) := by
  have hsan : sanitize_request r₁ = sanitize_request r₂ := by
    obtain ⟨u₁, f₁, k₁, h₁, p₁, a₁, n₁⟩ := r₁
    obtain ⟨u₂, f₂, k₂, h₂, p₂, a₂, n₂⟩ := r₂
    simp only at hurl hfmt hhdr hpxy haud hfn hc₁ hc₂
    subst hurl hfmt hhdr hpxy haud hfn hc₁ hc₂
    simp [sanitize_request, hne₁, hne₂]
  have hsanc : (sanitize_request r₁).cookie = some "***" := by
    simp [sanitize_request, hc₁, hne₁]
  refine ⟨hsan, hsanc, ?_, ?_⟩
  · unfold create_job
    rw [hurl]
    rcases validate_url (urlparse r₂.url) settings with _ | _
    · rfl
    · simp [hsan]
  · intro t ht
    unfold create_job at ht
    rcases hv : validate_url (urlparse r₁.url) settings with e | u
    · rw [hv] at ht
      simp at ht
    · rw [hv] at ht
      simp at ht
      subst ht
      simp [hc₁]

theorem cookie_redaction_witness :
    (sanitize_request reqCookie₁).cookie = some "***" ∧
    sanitize_request reqCookie₁ = sanitize_request reqCookie₂ :=
  ⟨(cookie_redaction (fun _ => { scheme := "http", hostname := some "a" })
      { allowed_domains := [] } [] reqCookie₁ reqCookie₂
      "id" 0 "SECRET1" "SECRET2" rfl rfl rfl rfl rfl rfl rfl rfl
      (by decide) (by decide)).2.1,
   (cookie_redaction (fun _ => { scheme := "http", hostname := some "a" })
      { allowed_domains := [] } [] reqCookie₁ reqCookie₂
      "id" 0 "SECRET1" "SECRET2" rfl rfl rfl rfl rfl rfl rfl rfl
      (by decide) (by decide)).1⟩

end Ytdlnis
